import Mathlib

/-!
Shallow embedding of the room-synchronization core of the multiplayer
arcade game (source: `App.tsx` and `constants.ts`).

The embedding mirrors the source:
 - the data model (`RoomData`, `PlayerEntry`, the room/player status enums,
   the local `GameState` phase enum, `GameScore`);
 - the snapshot-reconciliation logic of the `onSnapshot` callback
   (lines 139-180 of `App.tsx`), as the pure function `reconcile` from
   `(previous phase, incoming record, participant id, latest local score)`
   to `(next phase, session side effect)`;
 - the host round-end arbitration (lines 183-194) as `hostShouldFinish`;
 - the write-path handlers `handleCreateRoom`, `handleJoinRoom`,
   `handleStartMatch`, `handleRestartLobby`, `handleScoreUpdate`, and the
   multiplayer part of `handleGameOver`;
 - the `onSnapshot` error handler (lines 196-200) as `handleRoomSyncError`.

Timestamps and scores are `Int` (JS numbers used integrally here).  The
`players` object of the record is a key-value list; JS object keys are
unique, and every operation below preserves that.  Firestore partial
writes (`updateDoc` with dotted paths) are modelled by their effect on the
record.
-/

/-- Room-level status enum of `RoomData.status`: `'waiting' | 'playing' | 'finished'`. -/
inductive RoomStatus
  | waiting
  | playing
  | finished
deriving DecidableEq

/-- Per-player status enum of `PlayerEntry.status`:
`'ready' | 'playing' | 'crashed' | 'finished'`. -/
inductive PlayerStatus
  | ready
  | playing
  | crashed
  | finished
deriving DecidableEq

/-- The `GameState` enum driving the local phase
(`MENU`, `LOBBY`, `PLAYING`, `SPECTATING`, `GAME_OVER`). -/
inductive GameState
  | menu
  | lobby
  | playing
  | spectating
  | game_over
deriving DecidableEq

/-- One entry of the `players` map of a room record. -/
structure PlayerEntry where
  uid : String
  displayName : String
  score : Int
  isHost : Bool
  status : PlayerStatus
deriving DecidableEq

/-- The shared `RoomData` record (one Firestore document per room). -/
structure RoomData where
  id : String
  createdAt : Int
  status : RoomStatus
  startTime : Option Int
  players : List (String × PlayerEntry)
deriving DecidableEq

/-- Local transient play state (`GameScore`): current score, best, coins, lives. -/
structure GameScore where
  current : Int
  best : Int
  coins : Int
  lives : Int
deriving DecidableEq

/-- `GAME_DURATION_MS` from `constants.ts`: 3 minutes in milliseconds. -/
def GAME_DURATION_MS : Int := 3 * 60 * 1000

/-- `MAX_PLAYERS_PER_ROOM` from `constants.ts`. -/
def MAX_PLAYERS_PER_ROOM : Nat := 30

/-- `data.players[userId]?.status`: the local participant's own status in a
delivered record, if present. -/
def myStatus (data : RoomData) (userId : String) : Option PlayerStatus :=
  (data.players.lookup userId).map PlayerEntry.status

/-- The session-level side effect an `onSnapshot` reconciliation pass may
issue toward the local game session: start the local game
(`startGame(false)`), force a local game-over reporting the given final
score and resulting player status (`handleGameOver`), or nothing. -/
inductive SideEffect
  | none
  | startGame
  | reportResult (score : Int) (status : PlayerStatus)
deriving DecidableEq

/-- The player status written by `handleGameOver`:
`finalScore.lives > 0 ? 'finished' : 'crashed'`. -/
def handleGameOverStatus (finalScore : GameScore) : PlayerStatus :=
  if 0 < finalScore.lives then PlayerStatus.finished else PlayerStatus.crashed

/-- The state-transition part of the `onSnapshot` callback (`App.tsx`
lines 139-180): given the current local phase, the incoming record, the
participant id and the latest local score (read through `latestScoreRef`
at snapshot-arrival time, never captured at subscription time), produce
the next local phase and the session side effect.

 - room `playing`, own status `crashed`: nothing (never restart);
 - room `playing`, own status `playing`/`ready`: start only from
   `LOBBY`/`SPECTATING`/`GAME_OVER` (double-start guard);
 - room `finished`, phase `PLAYING`: `handleGameOver(latestScoreRef.current)`,
   which reports score and status and moves to `SPECTATING`;
 - room `finished`, phase `SPECTATING`: move to `GAME_OVER`;
 - room `waiting`, phase `GAME_OVER`/`SPECTATING`: move to `LOBBY`;
 - anything else: no-op. -/
def reconcile (userId : String) (gameState : GameState) (data : RoomData)
    (latestScore : GameScore) : GameState × SideEffect :=
  match data.status, myStatus data userId with
  | RoomStatus.playing, some PlayerStatus.crashed =>
      (gameState, SideEffect.none)
  | RoomStatus.playing, some PlayerStatus.playing
  | RoomStatus.playing, some PlayerStatus.ready =>
      if gameState = GameState.lobby ∨ gameState = GameState.spectating ∨
          gameState = GameState.game_over then
        (GameState.playing, SideEffect.startGame)
      else
        (gameState, SideEffect.none)
  | RoomStatus.playing, _ =>
      (gameState, SideEffect.none)
  | RoomStatus.finished, _ =>
      if gameState = GameState.playing then
        (GameState.spectating,
          SideEffect.reportResult latestScore.current
            (handleGameOverStatus latestScore))
      else if gameState = GameState.spectating then
        (GameState.game_over, SideEffect.none)
      else
        (gameState, SideEffect.none)
  | RoomStatus.waiting, _ =>
      if gameState = GameState.game_over ∨ gameState = GameState.spectating then
        (GameState.lobby, SideEffect.none)
      else
        (gameState, SideEffect.none)

/-- `data.players[userId]?.isHost`, with JS optional chaining: absent entry
counts as not host. -/
def isHostEntry (data : RoomData) (userId : String) : Bool :=
  match data.players.lookup userId with
  | some e => e.isHost
  | none => false

/-- `data.startTime && Date.now() - data.startTime > GAME_DURATION_MS`:
JS truthiness makes this false when `startTime` is `null` (or the
unreachable literal `0`). -/
def timeIsUp (data : RoomData) (now : Int) : Bool :=
  match data.startTime with
  | none => false
  | some t => decide (t ≠ 0) && decide (GAME_DURATION_MS < now - t)

/-- `Object.values(data.players).filter(p => p.status === 'playing').length`. -/
def activePlayersCount (data : RoomData) : Nat :=
  (data.players.filter (fun p => decide (p.2.status = PlayerStatus.playing))).length

/-- The host-arbitration part of the `onSnapshot` callback (`App.tsx`
lines 183-194): `true` exactly when the pass issues the
`updateDoc(docSnap.ref, { status: 'finished' })` write. -/
def hostShouldFinish (userId : String) (data : RoomData) (now : Int) : Bool :=
  if userId ≠ "" ∧ isHostEntry data userId = true ∧
      data.status = RoomStatus.playing then
    timeIsUp data now || decide (activePlayersCount data = 0)
  else
    false

/-- Outcome of `handleJoinRoom`, mirroring its control flow: the three
user-facing rejections (each performs no write: the function returns
before `updateDoc`) or a successful join carrying the record after the
`updateDoc` that writes the caller's entry. -/
inductive JoinResult
  | roomNotFound
  | roomFull
  | roomInProgress
  | joined (newRoom : RoomData)
deriving DecidableEq

/-- Effect on the `players` object of the partial write
`players.<uid> = entry`: replace the (unique) existing entry for that key,
or add it. -/
def setPlayer (players : List (String × PlayerEntry)) (uid : String)
    (entry : PlayerEntry) : List (String × PlayerEntry) :=
  if players.any (fun p => decide (p.1 = uid)) then
    players.map (fun p => if p.1 = uid then (uid, entry) else p)
  else
    players ++ [(uid, entry)]

/-- `handleCreateRoom` (`App.tsx` lines 207-235): the new record written
by `setDoc` — status `waiting`, no `startTime`, the creator as sole host
with status `ready` and score `0`. -/
def handleCreateRoom (userId playerName newRoomId : String) (now : Int) :
    RoomData :=
  { id := newRoomId
    createdAt := now
    status := RoomStatus.waiting
    startTime := none
    players := [(userId,
      { uid := userId
        displayName := playerName
        score := 0
        isHost := true
        status := PlayerStatus.ready })] }

/-- `handleJoinRoom` (`App.tsx` lines 237-277), on the read result of
`getDoc` (`none` when the document is absent).  Checks, in source order:
existence, capacity (`Object.keys(data.players).length >=
MAX_PLAYERS_PER_ROOM`), then `status === 'playing'`; otherwise issues the
`updateDoc` overwriting the caller's entry with score `0`,
`isHost: false`, status `'ready'`.  (The `if (!userId) return` guard for a
not-yet-authenticated client is an inert early exit outside this model.) -/
def handleJoinRoom (room : Option RoomData) (userId playerName : String) :
    JoinResult :=
  match room with
  | none => JoinResult.roomNotFound
  | some data =>
    if MAX_PLAYERS_PER_ROOM ≤ data.players.length then
      JoinResult.roomFull
    else if data.status = RoomStatus.playing then
      JoinResult.roomInProgress
    else
      let entry : PlayerEntry :=
        { uid := userId
          displayName := playerName
          score := 0
          isHost := false
          status := PlayerStatus.ready }
      JoinResult.joined { data with players := setPlayer data.players userId entry }

/-- `handleStartMatch` (`App.tsx` lines 279-296): the effect on the record
of the single batched `updateDoc` — `status: 'playing'`,
`startTime: Date.now()`, and for every player id currently in the room,
`players.<pid>.status = 'playing'` and `players.<pid>.score = 0`. -/
def handleStartMatch (data : RoomData) (now : Int) : RoomData :=
  { data with
    status := RoomStatus.playing
    startTime := some now
    players := data.players.map (fun p =>
      (p.1, { p.2 with status := PlayerStatus.playing, score := 0 })) }

/-- `handleRestartLobby` (`App.tsx` lines 298-314): the effect on the
record of the single batched `updateDoc` — `status: 'waiting'`,
`startTime: null`, and every player reset to status `'ready'`, score `0`. -/
def handleRestartLobby (data : RoomData) : RoomData :=
  { data with
    status := RoomStatus.waiting
    startTime := none
    players := data.players.map (fun p =>
      (p.1, { p.2 with status := PlayerStatus.ready, score := 0 })) }

/-- `handleScoreUpdate` (`App.tsx` lines 327-344), multiplayer part, for a
client in a room: given `lastScoreSync.current` and `Date.now()`, returns
the new `lastScoreSync.current` and the score written by `updateDoc`
(`players.<uid>.score = newScore.current`) when the throttle allows it. -/
def handleScoreUpdate (lastScoreSync now : Int) (newScore : GameScore) :
    Int × Option Int :=
  if 2000 < now - lastScoreSync then
    (now, some newScore.current)
  else
    (lastScoreSync, none)

/-- Run `handleScoreUpdate` over a sequence of score events (arrival time,
score), threading `lastScoreSync`; returns the issued writes as
(time, written value) pairs. -/
def runScoreUpdates (lastScoreSync : Int) :
    List (Int × GameScore) → List (Int × Int)
  | [] => []
  | (t, s) :: rest =>
    if 2000 < t - lastScoreSync then
      (t, s.current) :: runScoreUpdates t rest
    else
      runScoreUpdates lastScoreSync rest

/-- The local client state the `onSnapshot` error handler touches. -/
structure ClientRoomState where
  roomId : Option String
  gameState : GameState
deriving DecidableEq

/-- The `onSnapshot` error handler (`App.tsx` lines 196-200):
`setRoomId(null); setGameState(GameState.MENU)`. -/
def handleRoomSyncError (s : ClientRoomState) : ClientRoomState :=
  { s with roomId := none, gameState := GameState.menu }

/-- The room-listener effect (`App.tsx` lines 123-127) subscribes exactly
when a room id is set: with `roomId` cleared it returns before
`onSnapshot`, so no subscription (hence no retry) exists. -/
def roomSubscriptionActive (s : ClientRoomState) : Bool :=
  s.roomId.isSome

/-- Number of host-flagged entries in a record. -/
def countHosts (data : RoomData) : Nat :=
  (data.players.filter (fun p => p.2.isHost)).length

/-- Claim C1 (no resurrection): on any snapshot with room status
`playing`, a participant whose own entry is `crashed` or `finished` keeps
its local phase unchanged and gets no session side effect — in particular
the start-game side effect is never issued and no such snapshot can move
the local phase to `playing`.  The phase being universally quantified,
this holds at every point of every sequence of delivered snapshots. -/
theorem noResurrection (userId : String) (phase : GameState) (data : RoomData)
    (s : GameScore) (h : data.status = RoomStatus.playing)
    (hm : myStatus data userId = some PlayerStatus.crashed ∨
      myStatus data userId = some PlayerStatus.finished) :
    reconcile userId phase data s = (phase, SideEffect.none) := by
  rcases hm with hm | hm <;> simp [reconcile, h, hm]

/-- Witness for `noResurrection` at a concrete crashed participant. -/
theorem noResurrection_witness :
    reconcile "a" GameState.spectating
      ⟨"R", 0, RoomStatus.playing, some 1,
        [("a", ⟨"a", "A", 5, true, PlayerStatus.crashed⟩)]⟩
      ⟨0, 0, 0, 3⟩ = (GameState.spectating, SideEffect.none) :=
  noResurrection "a" GameState.spectating _ _ rfl (Or.inl (by decide))

/-- Claim C2 (idempotent reconciliation): re-applying `reconcile` to the
same snapshot, from the phase the first application produced, issues no
session side effect; the start-game side effect is issued exactly when the
room is `playing`, the own entry is `playing` or `ready`, and the local
phase is `lobby`, `spectating` or `game_over`; and with local phase
already `playing` a `playing` snapshot is a full no-op. -/
theorem idempotentReconcile (userId : String) (phase : GameState)
    (data : RoomData) (s₁ s₂ : GameScore) :
    (reconcile userId (reconcile userId phase data s₁).1 data s₂).2 =
      SideEffect.none
    ∧ ((reconcile userId phase data s₁).2 = SideEffect.startGame ↔
        (data.status = RoomStatus.playing ∧
         (myStatus data userId = some PlayerStatus.playing ∨
          myStatus data userId = some PlayerStatus.ready) ∧
         (phase = GameState.lobby ∨ phase = GameState.spectating ∨
          phase = GameState.game_over)))
    ∧ (data.status = RoomStatus.playing →
        reconcile userId GameState.playing data s₁ =
          (GameState.playing, SideEffect.none)) := by
  rcases hst : data.status <;>
    rcases hms : myStatus data userId with _ | st <;>
    (try cases st) <;>
    cases phase <;>
    simp [reconcile, hst, hms]

/-- Witness for the no-op conjunct of `idempotentReconcile` at a concrete
`playing` snapshot with the local phase already `playing`. -/
theorem idempotentReconcile_witness :
    reconcile "a" GameState.playing
      ⟨"R", 0, RoomStatus.playing, some 1,
        [("a", ⟨"a", "A", 5, true, PlayerStatus.playing⟩)]⟩
      ⟨0, 0, 0, 3⟩ = (GameState.playing, SideEffect.none) :=
  (idempotentReconcile "a" GameState.playing _ ⟨0, 0, 0, 3⟩ ⟨0, 0, 0, 3⟩).2.2 rfl

/-- Claim C3 (host round-end arbitration): a participant evaluating a
snapshot in which its own entry is host-flagged while the room is
`playing` issues the `status: 'finished'` write exactly when the round
timed out (`now - startTime > GAME_DURATION_MS`) or no player is still
`playing`; each condition alone suffices.  `startTime` ranges over the
values the system writes: absent, or a positive `Date.now()` timestamp. -/
theorem hostArbitration (userId : String) (data : RoomData) (now : Int)
    (e : PlayerEntry)
    (hu : userId ≠ "")
    (hl : data.players.lookup userId = some e)
    (hh : e.isHost = true)
    (hs : data.status = RoomStatus.playing)
    (hstart : data.startTime = none ∨
      ∃ t : Int, 0 < t ∧ data.startTime = some t) :
    hostShouldFinish userId data now = true ↔
      ((∃ t, data.startTime = some t ∧ GAME_DURATION_MS < now - t) ∨
        activePlayersCount data = 0) := by
  have hhost : isHostEntry data userId = true := by
    simp [isHostEntry, hl, hh]
  rcases hstart with h0 | ⟨t, ht, h0⟩
  · simp [hostShouldFinish, hu, hhost, hs, timeIsUp, h0]
  · simp [hostShouldFinish, hu, hhost, hs, timeIsUp, h0, ht.ne']

/-- Witness for `hostArbitration`: a timed-out snapshot with one active
player still makes the host finish the round. -/
theorem hostArbitration_witness :
    (hostShouldFinish "h"
      ⟨"R", 0, RoomStatus.playing, some 1,
        [("h", ⟨"h", "H", 0, true, PlayerStatus.playing⟩)]⟩
      200000 = true ↔
      ((∃ t, (⟨"R", 0, RoomStatus.playing, some 1,
        [("h", ⟨"h", "H", 0, true, PlayerStatus.playing⟩)]⟩ :
          RoomData).startTime = some t ∧ GAME_DURATION_MS < 200000 - t) ∨
        activePlayersCount
          ⟨"R", 0, RoomStatus.playing, some 1,
            [("h", ⟨"h", "H", 0, true, PlayerStatus.playing⟩)]⟩ = 0)) ∧
    hostShouldFinish "h"
      ⟨"R", 0, RoomStatus.playing, some 1,
        [("h", ⟨"h", "H", 0, true, PlayerStatus.playing⟩)]⟩
      200000 = true :=
  ⟨hostArbitration "h" _ 200000 ⟨"h", "H", 0, true, PlayerStatus.playing⟩
      (by decide) (by decide) rfl rfl (Or.inr ⟨1, by decide, rfl⟩),
    by decide⟩

/-- After `setPlayer`, looking up the written key yields the new entry. -/
theorem lookup_setPlayer (ps : List (String × PlayerEntry)) (uid : String)
    (entry : PlayerEntry) :
    (setPlayer ps uid entry).lookup uid = some entry := by
  unfold setPlayer
  split
  · rename_i hany
    induction ps with
    | nil => simp at hany
    | cons p ps ih =>
      simp only [List.any_cons, Bool.or_eq_true, decide_eq_true_eq] at hany
      by_cases hp : p.1 = uid
      · rw [List.map_cons, if_pos hp]
        simp [List.lookup]
      · have h' : ps.any (fun p => decide (p.1 = uid)) = true := by
          rcases hany with h | h
          · exact absurd h hp
          · exact h
        have hne : (uid == p.1) = false := by
          simp [Ne.symm hp]
        rw [List.map_cons, if_neg hp]
        simp only [List.lookup, hne]
        exact ih h'
  · induction ps with
    | nil => simp [List.lookup]
    | cons p ps ih =>
      rename_i hany
      simp only [List.any_cons, Bool.or_eq_true, decide_eq_true_eq,
        not_or] at hany
      have hne : (uid == p.1) = false := by
        simp [Ne.symm hany.1]
      have h' : ¬ ps.any (fun p => decide (p.1 = uid)) = true := by
        simp only [List.any_eq_true, decide_eq_true_eq]
        simpa using hany.2
      simp only [List.cons_append, List.lookup, hne]
      exact ih h'

/-- Every entry of `setPlayer ps uid e` is the new entry or an original one. -/
theorem mem_setPlayer (ps : List (String × PlayerEntry)) (uid : String)
    (entry : PlayerEntry) (q : String × PlayerEntry)
    (hq : q ∈ setPlayer ps uid entry) : q = (uid, entry) ∨ q ∈ ps := by
  unfold setPlayer at hq
  split at hq
  · rcases List.mem_map.1 hq with ⟨p, hp, heq⟩
    by_cases h : p.1 = uid
    · simp only [h, if_pos] at heq
      exact Or.inl heq.symm
    · simp only [h, if_neg, not_false_iff] at heq
      exact Or.inr (heq ▸ hp)
  · rcases List.mem_append.1 hq with h | h
    · exact Or.inr h
    · simp at h
      exact Or.inl h

/-- Claim C4 (join): `handleJoinRoom` rejects with `roomNotFound` when the
document is absent, `roomFull` when `|players| ≥ MAX_PLAYERS_PER_ROOM`,
`roomInProgress` when the room is `playing` — all without writing — and
otherwise (`waiting` or `finished`, so a finished room between rounds can
be joined) overwrites the caller's entry with score `0`, `isHost: false`,
status `'ready'`, leaving room status and start time untouched. -/
theorem joinSpec (userId playerName : String) :
    handleJoinRoom none userId playerName = JoinResult.roomNotFound
    ∧ (∀ data : RoomData, MAX_PLAYERS_PER_ROOM ≤ data.players.length →
        handleJoinRoom (some data) userId playerName = JoinResult.roomFull)
    ∧ (∀ data : RoomData, data.players.length < MAX_PLAYERS_PER_ROOM →
        data.status = RoomStatus.playing →
        handleJoinRoom (some data) userId playerName =
          JoinResult.roomInProgress)
    ∧ (∀ data : RoomData, data.players.length < MAX_PLAYERS_PER_ROOM →
        data.status ≠ RoomStatus.playing →
        ∃ r', handleJoinRoom (some data) userId playerName =
            JoinResult.joined r'
          ∧ r'.status = data.status
          ∧ r'.startTime = data.startTime
          ∧ r'.players.lookup userId =
              some ⟨userId, playerName, 0, false, PlayerStatus.ready⟩) := by
  refine ⟨rfl, ?_, ?_, ?_⟩
  · intro data hfull
    simp [handleJoinRoom, hfull]
  · intro data hroom hplay
    simp [handleJoinRoom, Nat.not_le.2 hroom, hplay]
  · intro data hroom hplay
    refine ⟨{ data with players := (setPlayer data.players userId
        ⟨userId, playerName, 0, false, PlayerStatus.ready⟩) },
      ?_, rfl, rfl, lookup_setPlayer _ _ _⟩
    simp [handleJoinRoom, Nat.not_le.2 hroom, hplay]

/-- Witness for `joinSpec`: a full room rejects, a playing room rejects,
and joining a finished two-player room succeeds with a fresh ready entry. -/
theorem joinSpec_witness :
    handleJoinRoom
      (some ⟨"R", 0, RoomStatus.waiting, none,
        List.replicate 30 ("p", ⟨"p", "P", 0, false, PlayerStatus.ready⟩)⟩)
      "u" "U" = JoinResult.roomFull
    ∧ handleJoinRoom
        (some ⟨"R", 0, RoomStatus.playing, some 1,
          [("a", ⟨"a", "A", 0, true, PlayerStatus.playing⟩)]⟩)
        "u" "U" = JoinResult.roomInProgress
    ∧ ∃ r', handleJoinRoom
        (some ⟨"R", 0, RoomStatus.finished, some 1,
          [("a", ⟨"a", "A", 7, true, PlayerStatus.finished⟩)]⟩)
        "u" "U" = JoinResult.joined r'
      ∧ r'.status = RoomStatus.finished
      ∧ r'.startTime = some 1
      ∧ r'.players.lookup "u" =
          some ⟨"u", "U", 0, false, PlayerStatus.ready⟩ :=
  ⟨(joinSpec "u" "U").2.1 _ (by decide),
    (joinSpec "u" "U").2.2.1 _ (by decide) rfl,
    (joinSpec "u" "U").2.2.2 _ (by decide) (by decide)⟩

/-- Claim C5 (forced game-over on `finished`): when a `finished` snapshot
arrives with the local phase `PLAYING`, the reconciliation forces a local
game-over that reports the latest local score read at snapshot-arrival
time (the score argument, not a captured value) together with the status
`finished` when lives remain and `crashed` at zero lives, and moves the
phase to `SPECTATING`; with the phase already `SPECTATING`, it moves
directly to `GAME_OVER` — so the forced pass reaches `GAME_OVER` on the
re-evaluation that follows it. -/
theorem finishedSnapshot (userId : String) (data : RoomData) (s : GameScore)
    (h : data.status = RoomStatus.finished) :
    reconcile userId GameState.playing data s =
      (GameState.spectating,
        SideEffect.reportResult s.current
          (if 0 < s.lives then PlayerStatus.finished else PlayerStatus.crashed))
    ∧ reconcile userId GameState.spectating data s =
        (GameState.game_over, SideEffect.none)
    ∧ (reconcile userId (reconcile userId GameState.playing data s).1 data
        s).1 = GameState.game_over := by
  simp [reconcile, h, handleGameOverStatus]

/-- Witness for `finishedSnapshot` at a concrete finished room and a
zero-lives score: the report carries the score and status `crashed`. -/
theorem finishedSnapshot_witness :
    reconcile "a" GameState.playing
      ⟨"R", 0, RoomStatus.finished, some 1,
        [("a", ⟨"a", "A", 5, false, PlayerStatus.playing⟩)]⟩
      ⟨42, 0, 0, 0⟩ =
      (GameState.spectating,
        SideEffect.reportResult 42 PlayerStatus.crashed)
    ∧ reconcile "a" GameState.spectating
        ⟨"R", 0, RoomStatus.finished, some 1,
          [("a", ⟨"a", "A", 5, false, PlayerStatus.playing⟩)]⟩
        ⟨42, 0, 0, 0⟩ = (GameState.game_over, SideEffect.none) :=
  ⟨((finishedSnapshot "a" _ ⟨42, 0, 0, 0⟩ rfl).1).trans (by decide),
    (finishedSnapshot "a" _ ⟨42, 0, 0, 0⟩ rfl).2.1⟩

/-- Every player entry of a record after `handleRestartLobby` is reset to
status `ready` and score `0`. -/
theorem restart_players_reset (data : RoomData) (q : String × PlayerEntry)
    (hq : q ∈ (handleRestartLobby data).players) :
    q.2.status = PlayerStatus.ready ∧ q.2.score = 0 := by
  simp only [handleRestartLobby] at hq
  rcases List.mem_map.1 hq with ⟨p, hp, rfl⟩
  exact ⟨rfl, rfl⟩

/-- Claim C6 (round reset): `handleRestartLobby` yields a record with
status `waiting`, `startTime` cleared, the same participant ids, and
every entry reset to status `ready`, score `0`; a subsequent join (when
capacity allows) succeeds and still observes status `waiting`, no start
time, and every entry (the joiner's included) at status `ready`,
score `0`. -/
theorem restartLobbySpec (data : RoomData) :
    (handleRestartLobby data).status = RoomStatus.waiting
    ∧ (handleRestartLobby data).startTime = none
    ∧ (∀ q ∈ (handleRestartLobby data).players,
        q.2.status = PlayerStatus.ready ∧ q.2.score = 0)
    ∧ (handleRestartLobby data).players.map Prod.fst =
        data.players.map Prod.fst
    ∧ (∀ uid name : String,
        (handleRestartLobby data).players.length < MAX_PLAYERS_PER_ROOM →
        ∃ r', handleJoinRoom (some (handleRestartLobby data)) uid name =
            JoinResult.joined r'
          ∧ r'.status = RoomStatus.waiting
          ∧ r'.startTime = none
          ∧ ∀ q ∈ r'.players,
              q.2.status = PlayerStatus.ready ∧ q.2.score = 0) := by
  refine ⟨rfl, rfl, restart_players_reset data, ?_, ?_⟩
  · simp [handleRestartLobby]
  · intro uid name hlen
    have hw : (handleRestartLobby data).status = RoomStatus.waiting := rfl
    refine ⟨{ handleRestartLobby data with
        players := (setPlayer (handleRestartLobby data).players uid
          ⟨uid, name, 0, false, PlayerStatus.ready⟩) }, ?_, rfl, rfl, ?_⟩
    · simp [handleJoinRoom, Nat.not_le.2 hlen, hw]
    · intro q hq
      rcases mem_setPlayer _ _ _ q hq with h | h
      · subst h
        exact ⟨rfl, rfl⟩
      · exact restart_players_reset data q h

/-- Witness for `restartLobbySpec` at a concrete two-player room: the reset
record is `waiting` and the reset host entry is `ready` at score `0`. -/
theorem restartLobbySpec_witness :
    (handleRestartLobby
      ⟨"R", 0, RoomStatus.finished, some 1,
        [("a", ⟨"a", "A", 9, true, PlayerStatus.finished⟩),
         ("b", ⟨"b", "B", 4, false, PlayerStatus.crashed⟩)]⟩).status =
      RoomStatus.waiting
    ∧ ((("a", ⟨"a", "A", 0, true, PlayerStatus.ready⟩) :
          String × PlayerEntry).2.status = PlayerStatus.ready
        ∧ (("a", ⟨"a", "A", 0, true, PlayerStatus.ready⟩) :
          String × PlayerEntry).2.score = 0) :=
  ⟨(restartLobbySpec _).1,
    (restartLobbySpec
      ⟨"R", 0, RoomStatus.finished, some 1,
        [("a", ⟨"a", "A", 9, true, PlayerStatus.finished⟩),
         ("b", ⟨"b", "B", 4, false, PlayerStatus.crashed⟩)]⟩).2.2.1
      ("a", ⟨"a", "A", 0, true, PlayerStatus.ready⟩) (by decide)⟩

/-- Claim C7 (match start): `handleStartMatch` is a single batched update
producing a record with status `playing`, the fresh `startTime`, the same
participant ids, and every entry reset to status `playing`, score `0`. -/
theorem startMatchSpec (data : RoomData) (now : Int) :
    (handleStartMatch data now).status = RoomStatus.playing
    ∧ (handleStartMatch data now).startTime = some now
    ∧ (∀ q ∈ (handleStartMatch data now).players,
        q.2.status = PlayerStatus.playing ∧ q.2.score = 0)
    ∧ (handleStartMatch data now).players.map Prod.fst =
        data.players.map Prod.fst := by
  refine ⟨rfl, rfl, ?_, ?_⟩
  · intro q hq
    simp only [handleStartMatch] at hq
    rcases List.mem_map.1 hq with ⟨p, hp, rfl⟩
    exact ⟨rfl, rfl⟩
  · simp [handleStartMatch]

/-- Witness for `startMatchSpec` at a concrete lobby: status, start time,
and the reset entry of participant `"b"`. -/
theorem startMatchSpec_witness :
    (handleStartMatch
      ⟨"R", 0, RoomStatus.waiting, none,
        [("a", ⟨"a", "A", 0, true, PlayerStatus.ready⟩),
         ("b", ⟨"b", "B", 0, false, PlayerStatus.ready⟩)]⟩ 777).startTime =
      some 777
    ∧ ((("b", ⟨"b", "B", 0, false, PlayerStatus.playing⟩) :
          String × PlayerEntry).2.status = PlayerStatus.playing
        ∧ (("b", ⟨"b", "B", 0, false, PlayerStatus.playing⟩) :
          String × PlayerEntry).2.score = 0) :=
  ⟨(startMatchSpec _ 777).2.1,
    (startMatchSpec
      ⟨"R", 0, RoomStatus.waiting, none,
        [("a", ⟨"a", "A", 0, true, PlayerStatus.ready⟩),
         ("b", ⟨"b", "B", 0, false, PlayerStatus.ready⟩)]⟩ 777).2.2.1
      ("b", ⟨"b", "B", 0, false, PlayerStatus.playing⟩) (by decide)⟩

/-- Every write issued by a run of the throttled score reporter is more
than 2000 ms after the `lastScoreSync` value the run started from. -/
theorem runScoreUpdates_gap (events : List (Int × GameScore)) :
    ∀ (lastScoreSync : Int) (w : Int × Int),
      w ∈ runScoreUpdates lastScoreSync events →
      lastScoreSync + 2000 < w.1 := by
  induction events with
  | nil =>
    intro lastScoreSync w hw
    simp [runScoreUpdates] at hw
  | cons e rest ih =>
    intro lastScoreSync w hw
    rcases e with ⟨t, s⟩
    simp only [runScoreUpdates] at hw
    split at hw
    · rename_i hgt
      rcases List.mem_cons.1 hw with h | h
      · subst h
        simpa using by omega
      · have h2 := ih t w h
        omega
    · exact ih lastScoreSync w hw

/-- Claim C8 (score-report throttling): over any sequence of local score
events, every write is issued more than 2000 ms (wall-clock, measured from
the previous successful write) after every earlier write — never two
writes within the interval — and each write carries the `current` value of
the score event delivered at that allowed tick (the writes are a sublist
of the events, so a burst collapses to the value current at the tick). -/
theorem scoreThrottle (lastScoreSync : Int) (events : List (Int × GameScore)) :
    List.Pairwise (fun a b : Int × Int => a.1 + 2000 < b.1)
      (runScoreUpdates lastScoreSync events)
    ∧ List.Sublist (runScoreUpdates lastScoreSync events)
        (events.map (fun e => (e.1, e.2.current))) := by
  induction events generalizing lastScoreSync with
  | nil =>
    simp only [runScoreUpdates, List.map_nil]
    exact ⟨List.Pairwise.nil, List.Sublist.refl _⟩
  | cons e rest ih =>
    rcases e with ⟨t, s⟩
    by_cases hgt : 2000 < t - lastScoreSync
    · constructor
      · simp only [runScoreUpdates, if_pos hgt]
        refine List.pairwise_cons.2 ⟨?_, (ih t).1⟩
        intro w hw
        have := runScoreUpdates_gap rest t w hw
        simpa using by omega
      · simp only [runScoreUpdates, if_pos hgt, List.map_cons]
        exact List.Sublist.cons₂ _ ((ih t).2)
    · constructor
      · simp only [runScoreUpdates, if_neg hgt]
        exact (ih lastScoreSync).1
      · simp only [runScoreUpdates, if_neg hgt, List.map_cons]
        exact List.Sublist.cons _ ((ih lastScoreSync).2)

/-- Claim C9 (subscription error): the `onSnapshot` error handler clears
the local room reference and forces the local phase to `MENU`; with the
room reference cleared, the room-listener effect does not subscribe, so no
retry or reconnection is attempted against the broken subscription. -/
theorem syncErrorSpec (s : ClientRoomState) :
    (handleRoomSyncError s).roomId = none
    ∧ (handleRoomSyncError s).gameState = GameState.menu
    ∧ roomSubscriptionActive (handleRoomSyncError s) = false :=
  ⟨rfl, rfl, rfl⟩

/-- Claim C10 (implicit host loss on self-join): room creation makes the
creator the sole host, but `handleJoinRoom` unconditionally writes the
caller's entry with `isHost: false`; so the creator joining their own
room overwrites the host flag, leaving a record with zero host entries,
and after any subsequent match start no participant's snapshot evaluation
can ever issue the round-end `finished` write. -/
theorem selfJoinDisablesHost (userId name1 name2 newRoomId : String)
    (now : Int) :
    countHosts (handleCreateRoom userId name1 newRoomId now) = 1
    ∧ ∃ r', handleJoinRoom (some (handleCreateRoom userId name1 newRoomId now))
          userId name2 = JoinResult.joined r'
        ∧ countHosts r' = 0
        ∧ ∀ (u : String) (tm n : Int),
            hostShouldFinish u (handleStartMatch r' tm) n = false := by
  refine ⟨by simp [countHosts, handleCreateRoom], ?_⟩
  refine ⟨⟨newRoomId, now, RoomStatus.waiting, none,
    [(userId, ⟨userId, name2, 0, false, PlayerStatus.ready⟩)]⟩, ?_, ?_, ?_⟩
  · simp [handleJoinRoom, handleCreateRoom, MAX_PLAYERS_PER_ROOM, setPlayer]
  · simp [countHosts]
  · intro u tm n
    have hhost : isHostEntry
        (handleStartMatch
          ⟨newRoomId, now, RoomStatus.waiting, none,
            [(userId, ⟨userId, name2, 0, false, PlayerStatus.ready⟩)]⟩ tm)
        u = false := by
      cases hbeq : u == userId <;>
        simp [isHostEntry, handleStartMatch, List.lookup, hbeq]
    simp [hostShouldFinish, hhost]
